import Mathlib

/-!
Shallow embedding of the EE201 Arduometer dual-display hand-counter firmware
(`EE201_Arduometer_Dual_Display_Hand_Counter.ino`).

The firmware keeps eight display digit registers `D0 .. D7` (AVR `char`,
8-bit signed; values used: `0x00`-`0x09` for digits, `0x0A` for the Code B
dash used as overflow marker, `0x0F` for blank) and three hold-duration
counters (`unsigned int`, 16-bit on the ATmega328P).  The timer-0 compare
ISR runs at 1 kHz: it reads `PINB & 0x3` (active-low buttons: bit 0 = PB0,
bit 1 = PB1, so `0` means both pressed and `3` means both released) and
either advances a hold counter or, on a both-released tick, fires the
threshold actions and clears all hold counters.

Display output is modelled as the trace of `display_load(dataH, dataL)`
calls: each is one address/data byte pair clocked out over SPI.
-/

/-- One 16-bit load to the MAX7219: the address byte and the data byte
passed to `display_load`. -/
abbrev SpiWrite := Nat × Nat

/-- Global mutable state of the firmware: digit registers `D0..D7` and the
three pushbutton hold counters. -/
structure St where
  d0 : Nat
  d1 : Nat
  d2 : Nat
  d3 : Nat
  d4 : Nat
  d5 : Nat
  d6 : Nat
  d7 : Nat
  counterPB0 : Nat
  counterPB1 : Nat
  counterPB01 : Nat
  deriving Repr, DecidableEq

/-- Increment of an 8-bit `char` register (`D3++` etc.), wrapping mod 256. -/
def inc8 (d : Nat) : Nat := (d + 1) % 256

/-- Increment of a 16-bit `unsigned int` (`counterPB0++` etc.), wrapping
mod 65536. -/
def inc16 (c : Nat) : Nat := (c + 1) % 65536

/-- The comparison `D > 0x09` on an AVR `char` (signed 8-bit): with the
register holding raw byte `d`, the signed value exceeds 9 exactly when
`10 <= d <= 127` (bytes 128..255 read as negative). -/
def sgt9 (d : Nat) : Bool := decide (10 ≤ d ∧ d ≤ 127)

/-- Mirrors `update_upper_display`: pushes digits 0-3 (addresses 1-4). -/
def update_upper_display (s : St) : List SpiWrite :=
  [(0x01, s.d0), (0x02, s.d1), (0x03, s.d2), (0x04, s.d3)]

/-- Mirrors `update_lower_display`: pushes digits 4-7 (addresses 5-8). -/
def update_lower_display (s : St) : List SpiWrite :=
  [(0x05, s.d4), (0x06, s.d5), (0x07, s.d6), (0x08, s.d7)]

/-- Mirrors `display_init`: five configuration loads (decode mode,
intensity, scan limit, shutdown/normal, display test off), then the digit
registers are set to the blank/zero pattern and both groups are pushed. -/
def display_init (s : St) : St × List SpiWrite :=
  let cfg : List SpiWrite :=
    [(0x09, 0xFF), (0x0A, 0x0F), (0x0B, 0x07), (0x0C, 0x01), (0x0F, 0x00)]
  let s1 : St := { s with d0 := 0x0F, d1 := 0x0F, d2 := 0x0F, d3 := 0x00 }
  let s2 : St := { s1 with d4 := 0x0F, d5 := 0x0F, d6 := 0x0F, d7 := 0x00 }
  (s2, cfg ++ update_upper_display s1 ++ update_lower_display s2)

/-- Global variables at C initialisation: all digits blank, counters 0. -/
def initialSt : St :=
  { d0 := 0x0F, d1 := 0x0F, d2 := 0x0F, d3 := 0x0F
    d4 := 0x0F, d5 := 0x0F, d6 := 0x0F, d7 := 0x0F
    counterPB0 := 0, counterPB1 := 0, counterPB01 := 0 }

/-- State after `setup()` has run `display_init()`: the freshly
initialised state. -/
def setupSt : St := (display_init initialSt).1

/-- Shared digit-increment logic of `actionPB0` (on `D0..D3`) and
`actionPB1` (on `D4..D7`); `a` is the MSD register, `d` the LSD.  Mirrors
the nested carry chain: bump the LSD; on carry past 9 clear it, turn a
blank next digit into 0 first, bump it, and so on; a carry out of the MSD
sets all four registers to `0x0A` (the dash overflow marker). -/
def incDigits (a b c d : Nat) : Nat × Nat × Nat × Nat :=
  let d1 := inc8 d
  if sgt9 d1 then
    let c1 := inc8 (if c = 0x0F then 0x00 else c)
    if sgt9 c1 then
      let b1 := inc8 (if b = 0x0F then 0x00 else b)
      if sgt9 b1 then
        let a1 := inc8 (if a = 0x0F then 0x00 else a)
        if sgt9 a1 then (0x0A, 0x0A, 0x0A, 0x0A)
        else (a1, 0x00, 0x00, 0x00)
      else (a, b1, 0x00, 0x00)
    else (a, b, c1, 0x00)
  else (a, b, c, d1)

/-- Mirrors `actionPB0`: increment the upper display count in `D0..D3`,
then push the upper group. -/
def actionPB0 (s : St) : St × List SpiWrite :=
  let q := incDigits s.d0 s.d1 s.d2 s.d3
  let s1 : St := { s with d0 := q.1, d1 := q.2.1, d2 := q.2.2.1, d3 := q.2.2.2 }
  (s1, update_upper_display s1)

/-- Mirrors `actionPB1`: increment the lower display count in `D4..D7`,
then push the lower group. -/
def actionPB1 (s : St) : St × List SpiWrite :=
  let q := incDigits s.d4 s.d5 s.d6 s.d7
  let s1 : St := { s with d4 := q.1, d5 := q.2.1, d6 := q.2.2.1, d7 := q.2.2.2 }
  (s1, update_lower_display s1)

/-- Mirrors `actionPB01`: reset both displays to blank,blank,blank,0 and
push both groups. -/
def actionPB01 (s : St) : St × List SpiWrite :=
  let s1 : St := { s with d0 := 0x0F, d1 := 0x0F, d2 := 0x0F, d3 := 0x00 }
  let s2 : St := { s1 with d4 := 0x0F, d5 := 0x0F, d6 := 0x0F, d7 := 0x00 }
  (s2, update_upper_display s1 ++ update_lower_display s2)

/-- Mirrors the timer-0 compare ISR body: `pbtns = PINB & 0x3` classifies
the (active-low) button lines; cases 0/1/2 advance one hold counter, case
3 (both released) evaluates the three strict thresholds in order PB0,
PB1, both, then unconditionally clears all three hold counters. -/
def tick (s : St) (pinb : Nat) : St × List SpiWrite :=
  let pbtns := pinb % 4
  match pbtns with
  | 0 => ({ s with counterPB01 := inc16 s.counterPB01 }, [])
  | 1 => ({ s with counterPB1 := inc16 s.counterPB1 }, [])
  | 2 => ({ s with counterPB0 := inc16 s.counterPB0 }, [])
  | _ =>
    let r0 := if 50 < s.counterPB0 then actionPB0 s else (s, [])
    let r1 := if 50 < r0.1.counterPB1 then actionPB1 r0.1 else (r0.1, [])
    let r2 := if 1000 < r1.1.counterPB01 then actionPB01 r1.1 else (r1.1, [])
    ({ r2.1 with counterPB0 := 0, counterPB1 := 0, counterPB01 := 0 },
     r0.2 ++ r1.2 ++ r2.2)

/-- Runs the ISR once per element of `ps` (each a raw `PINB` sample),
keeping only the state. -/
def runTicks (s : St) (ps : List Nat) : St :=
  ps.foldl (fun s p => (tick s p).1) s

/-- State after `n` Increment(A) events applied to the fresh state. -/
def iterA : Nat → St
  | 0 => setupSt
  | n + 1 => (actionPB0 (iterA n)).1

/-- State after `n` Increment(B) events applied to the fresh state. -/
def iterB : Nat → St
  | 0 => setupSt
  | n + 1 => (actionPB1 (iterB n)).1

/-- The upper display digit buffer, MSD first. -/
def digitsA (s : St) : Nat × Nat × Nat × Nat := (s.d0, s.d1, s.d2, s.d3)

/-- The lower display digit buffer, MSD first. -/
def digitsB (s : St) : Nat × Nat × Nat × Nat := (s.d4, s.d5, s.d6, s.d7)

/-- Modelled from the spec: the expected decimal rendering of a count with
leading blanks (`0x0F`), collapsing to four overflow markers (`0x0A`)
from 10000 on. -/
def renderDec (n : Nat) : Nat × Nat × Nat × Nat :=
  if 10000 ≤ n then (0x0A, 0x0A, 0x0A, 0x0A)
  else ((if n < 1000 then 0x0F else n / 1000),
        (if n < 100 then 0x0F else n / 100 % 10),
        (if n < 10 then 0x0F else n / 10 % 10),
        n % 10)

/-- Numeric value shown by a digit buffer: blanks read as leading zeros,
the saturated all-dash buffer reads as 10000. -/
def bufValue (q : Nat × Nat × Nat × Nat) : Nat :=
  if q = (0x0A, 0x0A, 0x0A, 0x0A) then 10000
  else (if q.1 = 0x0F then 0 else q.1) * 1000 +
       (if q.2.1 = 0x0F then 0 else q.2.1) * 100 +
       (if q.2.2.1 = 0x0F then 0 else q.2.2.1) * 10 +
       (if q.2.2.2 = 0x0F then 0 else q.2.2.2)

/-- A digit register holds a legal display symbol: a decimal digit, the
overflow dash, or blank. -/
def goodSym (d : Nat) : Prop := d ≤ 9 ∨ d = 0x0A ∨ d = 0x0F

instance : DecidablePred goodSym := fun d => by unfold goodSym; infer_instance

/-- Application of the carry-chain increment to a whole buffer. -/
def stepDigits (q : Nat × Nat × Nat × Nat) : Nat × Nat × Nat × Nat :=
  incDigits q.1 q.2.1 q.2.2.1 q.2.2.2

/-- Boolean check that one increment step agrees with the rendering at
count `n`. -/
def stepOK (n : Nat) : Bool :=
  decide (stepDigits (renderDec n) = renderDec (n + 1))

/-- Well-formed display state: each digit buffer is the rendering of some
count (the overflow buffer being the rendering of any count from 10000). -/
def wfSt (s : St) : Prop :=
  (∃ n, digitsA s = renderDec n) ∧ (∃ m, digitsB s = renderDec m)

/-- A state whose two buffers are both saturated at the overflow display. -/
def satSt : St :=
  { setupSt with d0 := 0x0A, d1 := 0x0A, d2 := 0x0A, d3 := 0x0A,
                 d4 := 0x0A, d5 := 0x0A, d6 := 0x0A, d7 := 0x0A }

set_option maxHeartbeats 4000000 in
/-- One firmware increment step agrees with the decimal rendering, checked
exhaustively over the four decimal digits of the count. -/
theorem incDigits_render_digits : ∀ w < 10, ∀ x < 10, ∀ y < 10, ∀ z < 10,
    stepOK (1000 * w + 100 * x + 10 * y + z) = true := by decide

/-- The saturated buffer is a fixed point of the digit-increment logic. -/
theorem incDigits_sat : incDigits 0x0A 0x0A 0x0A 0x0A = (0x0A, 0x0A, 0x0A, 0x0A) := by
  decide

/-- From 10000 on, the rendering is the constant overflow buffer. -/
theorem renderDec_sat (n : Nat) (h : 10000 ≤ n) :
    renderDec n = (0x0A, 0x0A, 0x0A, 0x0A) := by
  simp [renderDec, h]

/-- One firmware increment step agrees with the decimal rendering, for
every count. -/
theorem incDigits_renderDec (n : Nat) :
    stepDigits (renderDec n) = renderDec (n + 1) := by
  rcases lt_or_ge n 10000 with h | h
  · have hn : n = 1000 * (n / 1000) + 100 * (n / 100 % 10) +
        10 * (n / 10 % 10) + n % 10 := by omega
    have hok : stepOK n = true := by
      rw [hn]
      exact incDigits_render_digits _ (by omega) _ (by omega) _ (by omega) _ (by omega)
    exact of_decide_eq_true hok
  · rw [renderDec_sat n h, renderDec_sat (n + 1) (by omega)]
    exact incDigits_sat

/-- Counter A's buffer after `n` increments is the decimal rendering of
`n`, and counter B's buffer stays at the initial blank/zero pattern. -/
theorem iterA_render : ∀ n : Nat,
    digitsA (iterA n) = renderDec n ∧
      digitsB (iterA n) = (0x0F, 0x0F, 0x0F, 0x00)
  | 0 => by constructor <;> decide
  | n + 1 => by
    obtain ⟨hA, hB⟩ := iterA_render n
    refine ⟨?_, ?_⟩
    · show digitsA (actionPB0 (iterA n)).1 = renderDec (n + 1)
      have h0 : (iterA n).d0 = (renderDec n).1 := congrArg Prod.fst hA
      have h1 : (iterA n).d1 = (renderDec n).2.1 := congrArg (fun q => q.2.1) hA
      have h2 : (iterA n).d2 = (renderDec n).2.2.1 := congrArg (fun q => q.2.2.1) hA
      have h3 : (iterA n).d3 = (renderDec n).2.2.2 := congrArg (fun q => q.2.2.2) hA
      show (incDigits (iterA n).d0 (iterA n).d1 (iterA n).d2 (iterA n).d3 : _) =
        renderDec (n + 1)
      rw [h0, h1, h2, h3]
      exact incDigits_renderDec n
    · show digitsB (iterA n) = (0x0F, 0x0F, 0x0F, 0x00)
      exact hB

/-- Counter B's buffer after `n` increments is the decimal rendering of
`n`, and counter A's buffer stays at the initial blank/zero pattern. -/
theorem iterB_render : ∀ n : Nat,
    digitsB (iterB n) = renderDec n ∧
      digitsA (iterB n) = (0x0F, 0x0F, 0x0F, 0x00)
  | 0 => by constructor <;> decide
  | n + 1 => by
    obtain ⟨hB, hA⟩ := iterB_render n
    refine ⟨?_, ?_⟩
    · show digitsB (actionPB1 (iterB n)).1 = renderDec (n + 1)
      have h0 : (iterB n).d4 = (renderDec n).1 := congrArg Prod.fst hB
      have h1 : (iterB n).d5 = (renderDec n).2.1 := congrArg (fun q => q.2.1) hB
      have h2 : (iterB n).d6 = (renderDec n).2.2.1 := congrArg (fun q => q.2.2.1) hB
      have h3 : (iterB n).d7 = (renderDec n).2.2.2 := congrArg (fun q => q.2.2.2) hB
      show (incDigits (iterB n).d4 (iterB n).d5 (iterB n).d6 (iterB n).d7 : _) =
        renderDec (n + 1)
      rw [h0, h1, h2, h3]
      exact incDigits_renderDec n
    · show digitsA (iterB n) = (0x0F, 0x0F, 0x0F, 0x00)
      exact hA

/-- The displayed value of the rendering of `n` is `n` capped at 10000. -/
theorem bufValue_renderDec (n : Nat) : bufValue (renderDec n) = min n 10000 := by
  rcases lt_or_ge n 10000 with h | h
  · have h10 : ¬ 10000 ≤ n := by omega
    rw [Nat.min_eq_left (by omega)]
    simp only [bufValue, renderDec, if_neg h10]
    split_ifs <;>
      first
      | omega
      | (rename_i heq
         have h4 : n % 10 = 10 := congrArg (fun q => q.2.2.2) heq
         omega)
  · rw [renderDec_sat n h, Nat.min_eq_right h]
    simp [bufValue]

/-- Every symbol of every rendering is a legal display symbol. -/
theorem goodSym_renderDec (n : Nat) :
    goodSym (renderDec n).1 ∧ goodSym (renderDec n).2.1 ∧
      goodSym (renderDec n).2.2.1 ∧ goodSym (renderDec n).2.2.2 := by
  unfold renderDec goodSym
  split_ifs <;> simp <;> omega

/-- Increment(A) applies the carry chain to buffer A. -/
theorem digitsA_actionPB0 (s : St) :
    digitsA (actionPB0 s).1 = stepDigits (digitsA s) := rfl

/-- Increment(A) leaves buffer B untouched. -/
theorem digitsB_actionPB0 (s : St) : digitsB (actionPB0 s).1 = digitsB s := rfl

/-- Increment(B) applies the carry chain to buffer B. -/
theorem digitsB_actionPB1 (s : St) :
    digitsB (actionPB1 s).1 = stepDigits (digitsB s) := rfl

/-- Increment(B) leaves buffer A untouched. -/
theorem digitsA_actionPB1 (s : St) : digitsA (actionPB1 s).1 = digitsA s := rfl

/-- Reset leaves buffer A at the blank/zero pattern. -/
theorem digitsA_actionPB01 (s : St) :
    digitsA (actionPB01 s).1 = (0x0F, 0x0F, 0x0F, 0x00) := rfl

/-- Reset leaves buffer B at the blank/zero pattern. -/
theorem digitsB_actionPB01 (s : St) :
    digitsB (actionPB01 s).1 = (0x0F, 0x0F, 0x0F, 0x00) := rfl

/-- Increment(A) does not touch the PB1 hold counter. -/
theorem counterPB1_actionPB0 (s : St) :
    (actionPB0 s).1.counterPB1 = s.counterPB1 := rfl

/-- Increment(A) does not touch the combined hold counter. -/
theorem counterPB01_actionPB0 (s : St) :
    (actionPB0 s).1.counterPB01 = s.counterPB01 := rfl

/-- Increment(B) does not touch the combined hold counter. -/
theorem counterPB01_actionPB1 (s : St) :
    (actionPB1 s).1.counterPB01 = s.counterPB01 := rfl

/-- Well-formedness is preserved by Increment(A). -/
theorem wf_actionPB0 (s : St) (h : wfSt s) : wfSt (actionPB0 s).1 := by
  obtain ⟨⟨n, hn⟩, ⟨m, hm⟩⟩ := h
  refine ⟨⟨n + 1, ?_⟩, ⟨m, ?_⟩⟩
  · rw [digitsA_actionPB0, hn]; exact incDigits_renderDec n
  · rw [digitsB_actionPB0]; exact hm

/-- Well-formedness is preserved by Increment(B). -/
theorem wf_actionPB1 (s : St) (h : wfSt s) : wfSt (actionPB1 s).1 := by
  obtain ⟨⟨n, hn⟩, ⟨m, hm⟩⟩ := h
  refine ⟨⟨n, ?_⟩, ⟨m + 1, ?_⟩⟩
  · rw [digitsA_actionPB1]; exact hn
  · rw [digitsB_actionPB1, hm]; exact incDigits_renderDec m

/-- Reset always yields a well-formed state. -/
theorem wf_actionPB01 (s : St) : wfSt (actionPB01 s).1 := by
  refine ⟨⟨0, ?_⟩, ⟨0, ?_⟩⟩
  · rw [digitsA_actionPB01]; decide
  · rw [digitsB_actionPB01]; decide

/-- The ISR on a both-pressed sample. -/
theorem tick_case0 (s : St) (p : Nat) (h : p % 4 = 0) :
    tick s p = ({ s with counterPB01 := inc16 s.counterPB01 }, []) := by
  unfold tick; rw [h]

/-- The ISR on an only-PB1-pressed sample. -/
theorem tick_case1 (s : St) (p : Nat) (h : p % 4 = 1) :
    tick s p = ({ s with counterPB1 := inc16 s.counterPB1 }, []) := by
  unfold tick; rw [h]

/-- The ISR on an only-PB0-pressed sample. -/
theorem tick_case2 (s : St) (p : Nat) (h : p % 4 = 2) :
    tick s p = ({ s with counterPB0 := inc16 s.counterPB0 }, []) := by
  unfold tick; rw [h]

/-- The ISR on a both-released sample: threshold evaluation in order
PB0, PB1, both, then the unconditional clearing of all hold counters. -/
theorem tick_release (s : St) (p : Nat) (h : p % 4 = 3) :
    tick s p =
      (let r0 := if 50 < s.counterPB0 then actionPB0 s else (s, [])
       let r1 := if 50 < r0.1.counterPB1 then actionPB1 r0.1 else (r0.1, [])
       let r2 := if 1000 < r1.1.counterPB01 then actionPB01 r1.1 else (r1.1, [])
       ({ r2.1 with counterPB0 := 0, counterPB1 := 0, counterPB01 := 0 },
        r0.2 ++ r1.2 ++ r2.2)) := by
  unfold tick; rw [h]

/-- A both-released tick on which no threshold is met: the state is
unchanged except that the hold counters are cleared, and nothing is sent
to the display. -/
theorem tick3_none (s : St) (p : Nat) (hp : p % 4 = 3)
    (h0 : s.counterPB0 ≤ 50) (h1 : s.counterPB1 ≤ 50) (h01 : s.counterPB01 ≤ 1000) :
    tick s p = ({ s with counterPB0 := 0, counterPB1 := 0, counterPB01 := 0 }, []) := by
  rw [tick_release s p hp]
  simp only [if_neg (by omega : ¬ 50 < s.counterPB0),
    if_neg (by omega : ¬ 50 < s.counterPB1),
    if_neg (by omega : ¬ 1000 < s.counterPB01), List.append_nil]

/-- A both-released tick on which only the PB0 threshold is met. -/
theorem tick3_fire0 (s : St) (p : Nat) (hp : p % 4 = 3)
    (h0 : 50 < s.counterPB0) (h1 : s.counterPB1 ≤ 50) (h01 : s.counterPB01 ≤ 1000) :
    tick s p = ({ (actionPB0 s).1 with
        counterPB0 := 0, counterPB1 := 0, counterPB01 := 0 }, (actionPB0 s).2) := by
  rw [tick_release s p hp]
  simp only [if_pos h0, counterPB1_actionPB0, counterPB01_actionPB0,
    if_neg (by omega : ¬ 50 < s.counterPB1),
    if_neg (by omega : ¬ 1000 < s.counterPB01), List.append_nil]

/-- A both-released tick on which only the PB1 threshold is met. -/
theorem tick3_fire1 (s : St) (p : Nat) (hp : p % 4 = 3)
    (h0 : s.counterPB0 ≤ 50) (h1 : 50 < s.counterPB1) (h01 : s.counterPB01 ≤ 1000) :
    tick s p = ({ (actionPB1 s).1 with
        counterPB0 := 0, counterPB1 := 0, counterPB01 := 0 }, (actionPB1 s).2) := by
  rw [tick_release s p hp]
  simp only [if_neg (by omega : ¬ 50 < s.counterPB0), if_pos h1,
    counterPB01_actionPB1, if_neg (by omega : ¬ 1000 < s.counterPB01),
    List.nil_append, List.append_nil]

/-- A both-released tick on which only the combined threshold is met. -/
theorem tick3_fire01 (s : St) (p : Nat) (hp : p % 4 = 3)
    (h0 : s.counterPB0 ≤ 50) (h1 : s.counterPB1 ≤ 50) (h01 : 1000 < s.counterPB01) :
    tick s p = ({ (actionPB01 s).1 with
        counterPB0 := 0, counterPB1 := 0, counterPB01 := 0 }, (actionPB01 s).2) := by
  rw [tick_release s p hp]
  simp only [if_neg (by omega : ¬ 50 < s.counterPB0),
    if_neg (by omega : ¬ 50 < s.counterPB1), if_pos h01, List.nil_append]

/-- A both-released tick on which all three thresholds are met: the three
actions fire in order PB0, PB1, reset. -/
theorem tick3_fire_all (s : St) (p : Nat) (hp : p % 4 = 3)
    (h0 : 50 < s.counterPB0) (h1 : 50 < s.counterPB1) (h01 : 1000 < s.counterPB01) :
    tick s p =
      ({ (actionPB01 (actionPB1 (actionPB0 s).1).1).1 with
          counterPB0 := 0, counterPB1 := 0, counterPB01 := 0 },
        (actionPB0 s).2 ++ (actionPB1 (actionPB0 s).1).2 ++
          (actionPB01 (actionPB1 (actionPB0 s).1).1).2) := by
  have e1 : (actionPB0 s).1.counterPB1 = s.counterPB1 := rfl
  have e2 : (actionPB1 (actionPB0 s).1).1.counterPB01 = s.counterPB01 := rfl
  rw [tick_release s p hp]
  simp only [if_pos h0, e1, if_pos h1, e2, if_pos h01]

/-- A guarded action preserves well-formedness. -/
theorem wf_hold (c : Prop) [Decidable c] (f : St → St × List SpiWrite) (s : St)
    (hf : wfSt s → wfSt (f s).1) (h : wfSt s) :
    wfSt (if c then f s else (s, [])).1 := by
  split_ifs with hc
  · exact hf h
  · exact h

/-- Every ISR tick preserves well-formedness of the display state. -/
theorem wf_tick (s : St) (p : Nat) (h : wfSt s) : wfSt (tick s p).1 := by
  have h4 : p % 4 = 0 ∨ p % 4 = 1 ∨ p % 4 = 2 ∨ p % 4 = 3 := by omega
  rcases h4 with h0 | h0 | h0 | h0
  · rw [tick_case0 s p h0]; exact h
  · rw [tick_case1 s p h0]; exact h
  · rw [tick_case2 s p h0]; exact h
  · rw [tick_release s p h0]
    exact wf_hold _ actionPB01 _ (fun _ => wf_actionPB01 _)
      (wf_hold _ actionPB1 _ (wf_actionPB1 _)
        (wf_hold _ actionPB0 _ (wf_actionPB0 _) h))

/-- Any run of the ISR preserves well-formedness. -/
theorem wf_runTicks (ps : List Nat) : ∀ s : St, wfSt s → wfSt (runTicks s ps) := by
  induction ps with
  | nil => intro s h; exact h
  | cons p ps ih => intro s h; exact ih _ (wf_tick s p h)

/-- The freshly initialised state is well-formed. -/
theorem wf_setupSt : wfSt setupSt := ⟨⟨0, by decide⟩, ⟨0, by decide⟩⟩

/-- One tick keeps all three (16-bit) hold counters below 65536. -/
theorem counters_lt_tick (s : St) (p : Nat)
    (h : s.counterPB0 < 65536 ∧ s.counterPB1 < 65536 ∧ s.counterPB01 < 65536) :
    (tick s p).1.counterPB0 < 65536 ∧ (tick s p).1.counterPB1 < 65536 ∧
      (tick s p).1.counterPB01 < 65536 := by
  obtain ⟨h0, h1, h01⟩ := h
  have h4 : p % 4 = 0 ∨ p % 4 = 1 ∨ p % 4 = 2 ∨ p % 4 = 3 := by omega
  rcases h4 with hc | hc | hc | hc
  · rw [tick_case0 s p hc]
    exact ⟨h0, h1, by show inc16 s.counterPB01 < 65536; unfold inc16; omega⟩
  · rw [tick_case1 s p hc]
    exact ⟨h0, by show inc16 s.counterPB1 < 65536; unfold inc16; omega, h01⟩
  · rw [tick_case2 s p hc]
    exact ⟨by show inc16 s.counterPB0 < 65536; unfold inc16; omega, h1, h01⟩
  · rw [tick_release s p hc]
    exact ⟨by show (0 : Nat) < 65536; omega, by show (0 : Nat) < 65536; omega,
      by show (0 : Nat) < 65536; omega⟩

/-- Any run of the ISR keeps all three hold counters below 65536. -/
theorem counters_lt_run (ps : List Nat) : ∀ s : St,
    s.counterPB0 < 65536 ∧ s.counterPB1 < 65536 ∧ s.counterPB01 < 65536 →
    (runTicks s ps).counterPB0 < 65536 ∧ (runTicks s ps).counterPB1 < 65536 ∧
      (runTicks s ps).counterPB01 < 65536 := by
  induction ps with
  | nil => intro s h; exact h
  | cons p ps ih => intro s h; exact ih _ (counters_lt_tick s p h)

/-- Holding only PB0 for `k` ticks accumulates `k` on its hold counter
(as long as the 16-bit counter does not wrap). -/
theorem runTicks_replicate2 : ∀ (k : Nat) (s : St), s.counterPB0 + k < 65536 →
    (runTicks s (List.replicate k 2)).counterPB0 = s.counterPB0 + k
  | 0, s, _ => rfl
  | k + 1, s, h => by
    show (runTicks (tick s 2).1 (List.replicate k 2)).counterPB0 = s.counterPB0 + (k + 1)
    rw [tick_case2 s 2 rfl]
    have hc : ({ s with counterPB0 := inc16 s.counterPB0 } : St).counterPB0 =
        s.counterPB0 + 1 := by
      show inc16 s.counterPB0 = s.counterPB0 + 1
      unfold inc16; omega
    rw [runTicks_replicate2 k _ (by rw [hc]; omega), hc]
    omega

/-- C1: for every number `n` of Increment(A) events applied to the freshly
initialised state with no intervening Reset, counter A's digit buffer is
the decimal rendering of `n` (leading blanks for `n <= 9999`, the overflow
display from 10000 on), and counter B's digit buffer is unchanged at the
initial blank/zero pattern throughout. -/
theorem claimC1_incrementA_decimal (n : Nat) :
    digitsA (iterA n) = renderDec n ∧
      digitsB (iterA n) = (0x0F, 0x0F, 0x0F, 0x00) :=
  iterA_render n

/-- C2: Increment saturates.  On any state whose buffer is the all-overflow
display, Increment(A) (resp. Increment(B)) leaves that buffer in exactly
the same overflow state; the displayed value never decreases along a run
of Increment(A) events; 9999 increments followed by one more yield the
overflow display, and 1000 further increments leave it at overflow. -/
theorem claimC2_increment_saturates :
    (∀ s : St, digitsA s = (0x0A, 0x0A, 0x0A, 0x0A) →
        digitsA (actionPB0 s).1 = (0x0A, 0x0A, 0x0A, 0x0A)) ∧
    (∀ s : St, digitsB s = (0x0A, 0x0A, 0x0A, 0x0A) →
        digitsB (actionPB1 s).1 = (0x0A, 0x0A, 0x0A, 0x0A)) ∧
    (∀ n : Nat, bufValue (digitsA (iterA n)) ≤ bufValue (digitsA (iterA (n + 1)))) ∧
    digitsA (iterA 10000) = (0x0A, 0x0A, 0x0A, 0x0A) ∧
    digitsA (iterA 11000) = (0x0A, 0x0A, 0x0A, 0x0A) := by
  refine ⟨?_, ?_, ?_, ?_, ?_⟩
  · intro s hs
    rw [digitsA_actionPB0, hs]; decide
  · intro s hs
    rw [digitsB_actionPB1, hs]; decide
  · intro n
    rw [(iterA_render n).1, (iterA_render (n + 1)).1,
      bufValue_renderDec, bufValue_renderDec]
    exact min_le_min (Nat.le_succ n) le_rfl
  · exact ((iterA_render 10000).1).trans (renderDec_sat 10000 (by norm_num))
  · exact ((iterA_render 11000).1).trans (renderDec_sat 11000 (by norm_num))

/-- Witness for C2 at the concrete saturated state. -/
theorem claimC2_increment_saturates_witness :
    digitsA satSt = (0x0A, 0x0A, 0x0A, 0x0A) ∧
    digitsA (actionPB0 satSt).1 = (0x0A, 0x0A, 0x0A, 0x0A) ∧
    digitsB (actionPB1 satSt).1 = (0x0A, 0x0A, 0x0A, 0x0A) :=
  ⟨by decide, claimC2_increment_saturates.1 satSt (by decide),
    claimC2_increment_saturates.2.1 satSt (by decide)⟩

/-- C3: on a both-released tick, a single-button hold counter of exactly
50 does not fire the corresponding Increment while 51 does, and a combined
hold counter of exactly 1000 does not fire Reset while 1001 does — all
three threshold comparisons are strict. -/
theorem claimC3_threshold_strict (s : St) (p : Nat) (hp : p % 4 = 3) :
    (s.counterPB1 ≤ 50 → s.counterPB01 ≤ 1000 →
      (s.counterPB0 = 50 →
        tick s p = ({ s with counterPB0 := 0, counterPB1 := 0, counterPB01 := 0 }, [])) ∧
      (s.counterPB0 = 51 →
        tick s p = ({ (actionPB0 s).1 with
          counterPB0 := 0, counterPB1 := 0, counterPB01 := 0 }, (actionPB0 s).2))) ∧
    (s.counterPB0 ≤ 50 → s.counterPB01 ≤ 1000 →
      (s.counterPB1 = 50 →
        tick s p = ({ s with counterPB0 := 0, counterPB1 := 0, counterPB01 := 0 }, [])) ∧
      (s.counterPB1 = 51 →
        tick s p = ({ (actionPB1 s).1 with
          counterPB0 := 0, counterPB1 := 0, counterPB01 := 0 }, (actionPB1 s).2))) ∧
    (s.counterPB0 ≤ 50 → s.counterPB1 ≤ 50 →
      (s.counterPB01 = 1000 →
        tick s p = ({ s with counterPB0 := 0, counterPB1 := 0, counterPB01 := 0 }, [])) ∧
      (s.counterPB01 = 1001 →
        tick s p = ({ (actionPB01 s).1 with
          counterPB0 := 0, counterPB1 := 0, counterPB01 := 0 }, (actionPB01 s).2))) := by
  refine ⟨fun h1 h01 => ⟨fun h0 => ?_, fun h0 => ?_⟩,
          fun h0 h01 => ⟨fun h1 => ?_, fun h1 => ?_⟩,
          fun h0 h1 => ⟨fun h01 => ?_, fun h01 => ?_⟩⟩
  · exact tick3_none s p hp (by omega) h1 h01
  · exact tick3_fire0 s p hp (by omega) h1 h01
  · exact tick3_none s p hp h0 (by omega) h01
  · exact tick3_fire1 s p hp h0 (by omega) h01
  · exact tick3_none s p hp h0 h1 (by omega)
  · exact tick3_fire01 s p hp h0 h1 (by omega)

/-- Witness for C3 at concrete hold-counter values 50, 51, 1000, 1001. -/
theorem claimC3_threshold_strict_witness :
    (tick { setupSt with counterPB0 := 50 } 3 =
      ({ { setupSt with counterPB0 := 50 } with
          counterPB0 := 0, counterPB1 := 0, counterPB01 := 0 }, [])) ∧
    (tick { setupSt with counterPB0 := 51 } 3 =
      ({ (actionPB0 { setupSt with counterPB0 := 51 }).1 with
          counterPB0 := 0, counterPB1 := 0, counterPB01 := 0 },
        (actionPB0 { setupSt with counterPB0 := 51 }).2)) ∧
    (tick { setupSt with counterPB01 := 1000 } 3 =
      ({ { setupSt with counterPB01 := 1000 } with
          counterPB0 := 0, counterPB1 := 0, counterPB01 := 0 }, [])) ∧
    (tick { setupSt with counterPB01 := 1001 } 3 =
      ({ (actionPB01 { setupSt with counterPB01 := 1001 }).1 with
          counterPB0 := 0, counterPB1 := 0, counterPB01 := 0 },
        (actionPB01 { setupSt with counterPB01 := 1001 }).2)) := by
  refine ⟨?_, ?_, ?_, ?_⟩
  · exact ((claimC3_threshold_strict _ 3 rfl).1 (by decide) (by decide)).1 rfl
  · exact ((claimC3_threshold_strict _ 3 rfl).1 (by decide) (by decide)).2 rfl
  · exact ((claimC3_threshold_strict _ 3 rfl).2.2 (by decide) (by decide)).1 rfl
  · exact ((claimC3_threshold_strict _ 3 rfl).2.2 (by decide) (by decide)).2 rfl

/-- C4: after any tick whose button sample reads both buttons released,
all three hold counters are zero, regardless of which threshold actions
fired. -/
theorem claimC4_release_clears (s : St) (p : Nat) (hp : p % 4 = 3) :
    (tick s p).1.counterPB0 = 0 ∧ (tick s p).1.counterPB1 = 0 ∧
      (tick s p).1.counterPB01 = 0 := by
  rw [tick_release s p hp]
  exact ⟨rfl, rfl, rfl⟩

/-- Witness for C4 at the fresh state and sample 3. -/
theorem claimC4_release_clears_witness :
    (tick setupSt 3).1.counterPB0 = 0 ∧ (tick setupSt 3).1.counterPB1 = 0 ∧
      (tick setupSt 3).1.counterPB01 = 0 :=
  claimC4_release_clears setupSt 3 rfl

/-- C5: the combined hold counter advances exactly on both-pressed ticks —
on such a tick the whole state change is that single increment (single
hold counters and both digit buffers untouched, nothing written to the
display) — and on every other sample the combined counter is not
incremented: unchanged on single-press ticks, cleared on release ticks. -/
theorem claimC5_both_pressed (s : St) (p : Nat) :
    (p % 4 = 0 → tick s p = ({ s with counterPB01 := inc16 s.counterPB01 }, [])) ∧
    (p % 4 = 1 → (tick s p).1.counterPB01 = s.counterPB01) ∧
    (p % 4 = 2 → (tick s p).1.counterPB01 = s.counterPB01) ∧
    (p % 4 = 3 → (tick s p).1.counterPB01 = 0) := by
  refine ⟨fun h => tick_case0 s p h, fun h => ?_, fun h => ?_, fun h => ?_⟩
  · rw [tick_case1 s p h]
  · rw [tick_case2 s p h]
  · rw [tick_release s p h]

/-- Witness for C5 at the fresh state and all four samples. -/
theorem claimC5_both_pressed_witness :
    (tick setupSt 0 = ({ setupSt with counterPB01 := inc16 setupSt.counterPB01 }, [])) ∧
    ((tick setupSt 1).1.counterPB01 = setupSt.counterPB01) ∧
    ((tick setupSt 2).1.counterPB01 = setupSt.counterPB01) ∧
    ((tick setupSt 3).1.counterPB01 = 0) :=
  ⟨(claimC5_both_pressed setupSt 0).1 rfl, (claimC5_both_pressed setupSt 1).2.1 rfl,
    (claimC5_both_pressed setupSt 2).2.2.1 rfl, (claimC5_both_pressed setupSt 3).2.2.2 rfl⟩

/-- C6 (amended): in every reachable state each of the three hold counters
is a non-negative integer below 65536 (they are 16-bit and wrap), for every
sequence of button samples; the spec's bound of 1000 does not hold, see the
counterexample. -/
theorem claimC6_counters_bounded (ps : List Nat) :
    (runTicks setupSt ps).counterPB0 < 65536 ∧
    (runTicks setupSt ps).counterPB1 < 65536 ∧
    (runTicks setupSt ps).counterPB01 < 65536 :=
  counters_lt_run ps setupSt ⟨by decide, by decide, by decide⟩

/-- C6 counterexample: holding only PB0 for 1001 consecutive ticks drives
its hold counter to 1001, which exceeds the claimed bound of 1000. -/
theorem claimC6_counterexample :
    1000 < (runTicks setupSt (List.replicate 1001 2)).counterPB0 := by
  rw [runTicks_replicate2 1001 setupSt (by decide)]
  decide

/-- C7: for every prior state, Reset leaves both digit buffers at
(blank, blank, blank, 0) and pushes both 4-digit groups (addresses 1-8)
to the display. -/
theorem claimC7_reset_display (s : St) :
    digitsA (actionPB01 s).1 = (0x0F, 0x0F, 0x0F, 0x00) ∧
    digitsB (actionPB01 s).1 = (0x0F, 0x0F, 0x0F, 0x00) ∧
    (actionPB01 s).2 =
      [(0x01, 0x0F), (0x02, 0x0F), (0x03, 0x0F), (0x04, 0x00),
       (0x05, 0x0F), (0x06, 0x0F), (0x07, 0x0F), (0x08, 0x00)] :=
  ⟨rfl, rfl, rfl⟩

/-- C8: `display_init` emits exactly the five configuration writes in the
order decode-mode (0x09), intensity (0x0A), scan-limit (0x0B),
shutdown/normal (0x0C), test-mode-disable (0x0F) — all before any digit
write (addresses 0x01-0x08) — then sets all 8 digits to the blank/zero
pattern and pushes it out. -/
theorem claimC8_display_init (s : St) :
    display_init s =
      ({ s with d0 := 0x0F, d1 := 0x0F, d2 := 0x0F, d3 := 0x00,
                d4 := 0x0F, d5 := 0x0F, d6 := 0x0F, d7 := 0x00 },
       [(0x09, 0xFF), (0x0A, 0x0F), (0x0B, 0x07), (0x0C, 0x01), (0x0F, 0x00),
        (0x01, 0x0F), (0x02, 0x0F), (0x03, 0x0F), (0x04, 0x00),
        (0x05, 0x0F), (0x06, 0x0F), (0x07, 0x0F), (0x08, 0x00)]) := rfl

/-- C9: in every state reachable from the fresh state by any sequence of
button samples, each digit buffer is the decimal rendering of some count
(or the all-overflow buffer, which is the rendering of any count from
10000), and every one of the 8 digit registers holds a legal symbol:
a digit 0-9, the overflow dash 0x0A, or blank 0x0F. -/
theorem claimC9_digits_legal (ps : List Nat) :
    (∃ n, digitsA (runTicks setupSt ps) = renderDec n) ∧
    (∃ m, digitsB (runTicks setupSt ps) = renderDec m) ∧
    (goodSym (runTicks setupSt ps).d0 ∧ goodSym (runTicks setupSt ps).d1 ∧
     goodSym (runTicks setupSt ps).d2 ∧ goodSym (runTicks setupSt ps).d3 ∧
     goodSym (runTicks setupSt ps).d4 ∧ goodSym (runTicks setupSt ps).d5 ∧
     goodSym (runTicks setupSt ps).d6 ∧ goodSym (runTicks setupSt ps).d7) := by
  obtain ⟨⟨n, hn⟩, ⟨m, hm⟩⟩ := wf_runTicks ps setupSt wf_setupSt
  have hA0 : (runTicks setupSt ps).d0 = (renderDec n).1 := congrArg Prod.fst hn
  have hA1 : (runTicks setupSt ps).d1 = (renderDec n).2.1 :=
    congrArg (fun q => q.2.1) hn
  have hA2 : (runTicks setupSt ps).d2 = (renderDec n).2.2.1 :=
    congrArg (fun q => q.2.2.1) hn
  have hA3 : (runTicks setupSt ps).d3 = (renderDec n).2.2.2 :=
    congrArg (fun q => q.2.2.2) hn
  have hB0 : (runTicks setupSt ps).d4 = (renderDec m).1 := congrArg Prod.fst hm
  have hB1 : (runTicks setupSt ps).d5 = (renderDec m).2.1 :=
    congrArg (fun q => q.2.1) hm
  have hB2 : (runTicks setupSt ps).d6 = (renderDec m).2.2.1 :=
    congrArg (fun q => q.2.2.1) hm
  have hB3 : (runTicks setupSt ps).d7 = (renderDec m).2.2.2 :=
    congrArg (fun q => q.2.2.2) hm
  obtain ⟨g0, g1, g2, g3⟩ := goodSym_renderDec n
  obtain ⟨g4, g5, g6, g7⟩ := goodSym_renderDec m
  exact ⟨⟨n, hn⟩, ⟨m, hm⟩,
    hA0 ▸ g0, hA1 ▸ g1, hA2 ▸ g2, hA3 ▸ g3,
    hB0 ▸ g4, hB1 ▸ g5, hB2 ▸ g6, hB3 ▸ g7⟩

/-- C10: on a both-released tick on which all three carried-over hold
counters exceed their thresholds, the three actions fire in the fixed
order Increment(A), Increment(B), Reset(A,B) — the output trace is their
concatenation in that order — and the reset, running last, leaves both
counters displaying zero. -/
theorem claimC10_release_order (s : St) (p : Nat) (hp : p % 4 = 3)
    (h0 : 50 < s.counterPB0) (h1 : 50 < s.counterPB1) (h01 : 1000 < s.counterPB01) :
    tick s p =
      ({ (actionPB01 (actionPB1 (actionPB0 s).1).1).1 with
          counterPB0 := 0, counterPB1 := 0, counterPB01 := 0 },
        (actionPB0 s).2 ++ (actionPB1 (actionPB0 s).1).2 ++
          (actionPB01 (actionPB1 (actionPB0 s).1).1).2) ∧
    digitsA (tick s p).1 = (0x0F, 0x0F, 0x0F, 0x00) ∧
    digitsB (tick s p).1 = (0x0F, 0x0F, 0x0F, 0x00) := by
  have h := tick3_fire_all s p hp h0 h1 h01
  refine ⟨h, ?_, ?_⟩
  · rw [h]; rfl
  · rw [h]; rfl

/-- Witness for C10 at concrete carried-over counts 51, 51, 1001. -/
theorem claimC10_release_order_witness :
    digitsA (tick { setupSt with
        counterPB0 := 51, counterPB1 := 51, counterPB01 := 1001 } 3).1 =
      (0x0F, 0x0F, 0x0F, 0x00) ∧
    digitsB (tick { setupSt with
        counterPB0 := 51, counterPB1 := 51, counterPB01 := 1001 } 3).1 =
      (0x0F, 0x0F, 0x0F, 0x00) :=
  ⟨(claimC10_release_order _ 3 rfl (by decide) (by decide) (by decide)).2.1,
    (claimC10_release_order _ 3 rfl (by decide) (by decide) (by decide)).2.2⟩
